import Mathlib

/-!
Verification of the credential session engine of `gojwt-rest-api`.

The definitions below are a shallow embedding of the Go source:

* `internal/utils/jwt.go` — credential signer (`GenerateToken`, `ValidateToken`),
  with HMAC signatures modelled symbolically: a signature value records the
  algorithm, the key and the signed claims, and verification compares it with
  the recomputed value.
* `internal/domain/user.go` — the `RefreshToken` and `TokenBlacklist` records
  and `RefreshToken.IsValid`.
* `internal/repository/token_repository_impl.go` — the store operations,
  modelled as pure functions on a `Store` value; each fallible call takes a
  boolean telling whether the underlying database call fails on this run
  (a failed write leaves the store unchanged).
* `internal/service/user_service.go` — `Login`, `RefreshToken`, `Logout`.
  Time, the generated random tokens and the collaborating user-repository
  lookups are supplied through an environment `SvcEnv`, one value per call.
* `internal/middleware` — the JWT authentication middleware.

Timestamps are naturals (seconds); `time.Now().Before(t)` becomes `now < t`.
-/

/-! ## Credential signer (internal/utils/jwt.go) -/

/-- JWT signing algorithms relevant to the keyfunc check in `ValidateToken`. -/
inductive JWTAlg where
  | HS256
  | HS384
  | HS512
  | RS256
  | ES256
  | algNone
deriving DecidableEq, Repr

/-- Whether an algorithm is in the HMAC family: the keyfunc in `ValidateToken`
tests `token.Method.(*jwt.SigningMethodHMAC)`, which matches HS256, HS384 and
HS512 alike. -/
def JWTAlg.isHMAC : JWTAlg → Bool
  | .HS256 => true
  | .HS384 => true
  | .HS512 => true
  | _ => false

/-- The package-level `var signingMethod = jwt.SigningMethodHS256`. -/
def signingMethod : JWTAlg := JWTAlg.HS256

/-- The claims carried by an access credential (`JWTClaims` in jwt.go). -/
structure JWTClaims where
  userID : Nat
  email : String
  issuedAt : Nat
  expiresAt : Nat
deriving DecidableEq, Repr

/-- A symbolic MAC value: it records the algorithm, key and message it was
computed over; verification is equality with the recomputed value. -/
structure MacValue where
  alg : JWTAlg
  key : String
  signedClaims : JWTClaims
deriving DecidableEq, Repr

/-- A compact JWT as presented by a caller: header algorithm, claim set and
signature. -/
structure TokenString where
  alg : JWTAlg
  claims : JWTClaims
  sig : MacValue
deriving DecidableEq, Repr

/-- Errors of credential verification (domain error values plus the errors the
jwt library itself raises). -/
inductive JWTError where
  | invalidSigningMethod
  | invalidSignature
  | tokenExpired
  | invalidToken
deriving DecidableEq, Repr

/-- Signing a claim set: the token's header algorithm and its MAC agree. -/
def signToken (alg : JWTAlg) (claims : JWTClaims) (key : String) : TokenString :=
  { alg := alg, claims := claims, sig := { alg := alg, key := key, signedClaims := claims } }

/-- `GenerateToken` from jwt.go: claims with `iat = now`, `exp = now + expiration`,
signed with the package-level `signingMethod`. -/
def GenerateToken (userID : Nat) (email : String) (secret : String)
    (now expiration : Nat) : TokenString :=
  signToken signingMethod
    { userID := userID, email := email, issuedAt := now, expiresAt := now + expiration }
    secret

/-- `ValidateToken` from jwt.go. The keyfunc rejects any method that is not
`*jwt.SigningMethodHMAC`; then the library verifies the signature with the
returned secret and validates the registered claims (expiry). -/
def ValidateToken (tok : TokenString) (secret : String) (now : Nat) :
    Except JWTError JWTClaims :=
  if tok.alg.isHMAC = false then .error .invalidSigningMethod
  else if tok.sig ≠ { alg := tok.alg, key := secret, signedClaims := tok.claims } then
    .error .invalidSignature
  else if tok.claims.expiresAt ≤ now then .error .tokenExpired
  else .ok tok.claims

/-! ## Domain records (internal/domain/user.go) -/

/-- The persisted `RefreshToken` entity. -/
structure RefreshToken where
  id : Nat
  userID : Nat
  token : String
  tokenFamily : String
  expiresAt : Nat
  isRevoked : Bool
  revokedAt : Option Nat
  replacedBy : Option String
deriving DecidableEq, Repr

/-- `RefreshToken.IsValid`: `!rt.IsRevoked && time.Now().Before(rt.ExpiresAt)`. -/
def RefreshToken.IsValid (rt : RefreshToken) (now : Nat) : Bool :=
  !rt.isRevoked && decide (now < rt.expiresAt)

/-- The persisted `TokenBlacklist` entity (denylisted access credentials). -/
structure TokenBlacklist where
  id : Nat
  token : String
  expiresAt : Nat
deriving DecidableEq, Repr

/-- The `User` entity (the fields the session engine reads). -/
structure User where
  id : Nat
  name : String
  email : String
  password : String
deriving DecidableEq, Repr

/-- The session store: the `refresh_tokens` and `token_blacklist` tables. -/
structure Store where
  refreshTokens : List RefreshToken
  blacklist : List TokenBlacklist
deriving DecidableEq, Repr

/-- Errors a repository call can report: the mapped not-found value
(`domain.ErrTokenNotFound`, produced from `gorm.ErrRecordNotFound`) or any
other database failure, passed through raw. -/
inductive DbError where
  | tokenNotFound
  | storeFailure
deriving DecidableEq, Repr

/-! ## Token repository (internal/repository/token_repository_impl.go) -/

/-- `FindRefreshTokenByToken`: `First` on `token = ?`; `gorm.ErrRecordNotFound`
is mapped to `domain.ErrTokenNotFound`, any other error is returned raw.
`fail` tells whether the database call itself fails on this run. -/
def tokenRepositoryImpl.FindRefreshTokenByToken (s : Store) (tok : String)
    (fail : Bool) : Except DbError RefreshToken :=
  if fail then .error .storeFailure
  else
    match s.refreshTokens.find? (fun r => r.token == tok) with
    | some r => .ok r
    | none => .error .tokenNotFound

/-- `UpdateRefreshToken`: `db.Save(token)` — an unconditional update of the row
with the record's primary key; no `is_revoked` guard. -/
def tokenRepositoryImpl.UpdateRefreshToken (s : Store) (rec : RefreshToken) : Store :=
  { s with refreshTokens := s.refreshTokens.map fun r => if r.id == rec.id then rec else r }

/-- `CreateRefreshToken`: `db.Create(token)` — inserts a new row. -/
def tokenRepositoryImpl.CreateRefreshToken (s : Store) (rec : RefreshToken) : Store :=
  { s with refreshTokens := s.refreshTokens ++ [rec] }

/-- `RevokeRefreshToken`: `UPDATE ... WHERE token = ? SET is_revoked = true,
revoked_at = now` (no `is_revoked` condition). -/
def tokenRepositoryImpl.RevokeRefreshToken (s : Store) (tok : String) (now : Nat) : Store :=
  { s with refreshTokens := s.refreshTokens.map fun r =>
      if r.token == tok then { r with isRevoked := true, revokedAt := some now } else r }

/-- `RevokeTokenFamily`: `UPDATE ... WHERE token_family = ? AND is_revoked = false
SET is_revoked = true, revoked_at = now` — one bulk conditional update. -/
def tokenRepositoryImpl.RevokeTokenFamily (s : Store) (fam : String) (now : Nat) : Store :=
  { s with refreshTokens := s.refreshTokens.map fun r =>
      if r.tokenFamily == fam && !r.isRevoked then
        { r with isRevoked := true, revokedAt := some now }
      else r }

/-- `RevokeAllUserRefreshTokens`: bulk revoke of the user's active records. -/
def tokenRepositoryImpl.RevokeAllUserRefreshTokens (s : Store) (userID : Nat) (now : Nat) : Store :=
  { s with refreshTokens := s.refreshTokens.map fun r =>
      if r.userID == userID && !r.isRevoked then
        { r with isRevoked := true, revokedAt := some now }
      else r }

/-- `AddToBlacklist`: inserts a denylist row. -/
def tokenRepositoryImpl.AddToBlacklist (s : Store) (b : TokenBlacklist) : Store :=
  { s with blacklist := s.blacklist ++ [b] }

/-- `IsTokenBlacklisted`: `COUNT(*) WHERE token = ? AND expires_at > now` is
positive. -/
def tokenRepositoryImpl.IsTokenBlacklisted (s : Store) (tok : String) (now : Nat) : Bool :=
  s.blacklist.any fun b => b.token == tok && decide (now < b.expiresAt)

/-! ## Middleware (internal/middleware) -/

/-- Errors the authentication middleware reports. -/
inductive MiddlewareError where
  | authHeaderRequired
  | invalidAuthHeaderFormat
  | invalidOrExpiredToken
deriving DecidableEq, Repr

/-- `AuthMiddleware` acting on an already-extracted bearer token: it calls
`utils.ValidateToken` and on success stores the claims in the request context.
It performs no other check — in particular it never consults the token
blacklist of the store. -/
def AuthMiddleware (jwtSecret : String) (now : Nat) (tok : TokenString) :
    Except MiddlewareError JWTClaims :=
  match ValidateToken tok jwtSecret now with
  | .error _ => .error .invalidOrExpiredToken
  | .ok claims => .ok claims

/-! ## User service (internal/service/user_service.go) -/

/-- The error values the service returns on the session paths. `storeError`
stands for the raw repository error that `RefreshToken` passes through when
`UpdateRefreshToken` fails. -/
inductive SvcError where
  | invalidCredentials
  | invalidRefreshToken
  | tokenReused
  | tokenExpired
  | userNotFound
  | failedToGenerateToken
  | failedToCreateRefreshToken
  | storeError
deriving DecidableEq, Repr

/-- Which repository calls fail (as database operations) during one service
call. -/
structure StoreFail where
  findRTFails : Bool
  updateFails : Bool
  createFails : Bool
  revokeFamilyFails : Bool
  revokeTokenFails : Bool
deriving DecidableEq, Repr

/-- The environment of one service call: the current time, the configured
TTLs, the values produced by `GenerateTokenPair` (access token, fresh random
refresh secret, fresh random family id), the id the database assigns to an
inserted row, the outcome of the user-repository lookup and of the bcrypt
check, and the injected repository failures. -/
structure SvcEnv where
  now : Nat
  accessTokenExpiry : Nat
  refreshTokenExpiry : Nat
  newAccessToken : String
  newRefreshSecret : String
  newTokenFamily : String
  newRecordID : Nat
  userLookup : Option User
  passwordOk : Bool
  genFails : Bool
  fails : StoreFail
deriving DecidableEq, Repr

/-- `domain.RefreshTokenResponse`. -/
structure RefreshTokenResponse where
  accessToken : String
  refreshToken : String
  expiresIn : Nat
  tokenType : String
deriving DecidableEq, Repr

/-- `domain.LoginResponse` (the user part reduced to the id). -/
structure LoginResponse where
  userID : Nat
  accessToken : String
  refreshToken : String
  expiresIn : Nat
  tokenType : String
deriving DecidableEq, Repr

/-- The presented record with rotation fields set, exactly as `RefreshToken`
mutates it before `UpdateRefreshToken`: `IsRevoked = true`, `RevokedAt = now`,
`ReplacedBy = the new refresh secret`. -/
def rotatedRecord (env : SvcEnv) (r : RefreshToken) : RefreshToken :=
  { r with isRevoked := true, revokedAt := some env.now,
           replacedBy := some env.newRefreshSecret }

/-- The new record `RefreshToken` builds for `CreateRefreshToken`: same family
as the presented record, the fresh secret as token, `ExpiresAt = now + refresh
TTL`. -/
def newFamilyRecord (env : SvcEnv) (r : RefreshToken) (u : User) : RefreshToken :=
  { id := env.newRecordID, userID := u.id, token := env.newRefreshSecret,
    tokenFamily := r.tokenFamily, expiresAt := env.now + env.refreshTokenExpiry,
    isRevoked := false, revokedAt := none, replacedBy := none }

/-- The response of a successful rotation. -/
def refreshResponse (env : SvcEnv) : RefreshTokenResponse :=
  { accessToken := env.newAccessToken, refreshToken := env.newRefreshSecret,
    expiresIn := env.accessTokenExpiry, tokenType := "Bearer" }

/-- What `RefreshToken` carries from its read/validate/generate prefix into
its two store writes. -/
structure PendingRotation where
  storedToken : RefreshToken
  user : User
deriving DecidableEq, Repr

/-- The prefix of `userServiceImpl.RefreshToken` up to (not including) the two
store writes: find the record by the presented token (any error becomes
`ErrInvalidRefreshToken`); if invalid and revoked, revoke the whole family
discarding that call's error and fail `ErrTokenReused`; if invalid and not
revoked, fail `ErrTokenExpired`; otherwise fetch the user and generate the new
token pair. -/
def refreshReadPhase (env : SvcEnv) (s : Store) (presented : String) :
    Except SvcError PendingRotation × Store :=
  match tokenRepositoryImpl.FindRefreshTokenByToken s presented env.fails.findRTFails with
  | .error _ => (.error .invalidRefreshToken, s)
  | .ok storedToken =>
    if !storedToken.IsValid env.now then
      if storedToken.isRevoked then
        (.error .tokenReused,
          if env.fails.revokeFamilyFails then s
          else tokenRepositoryImpl.RevokeTokenFamily s storedToken.tokenFamily env.now)
      else (.error .tokenExpired, s)
    else
      match env.userLookup with
      | none => (.error .userNotFound, s)
      | some user =>
        if env.genFails then (.error .failedToGenerateToken, s)
        else (.ok { storedToken := storedToken, user := user }, s)

/-- The write suffix of `userServiceImpl.RefreshToken`: save the presented
record with the rotation fields set (a failure there is returned raw), then
insert the new record (a failure there becomes
`ErrFailedToCreateRefreshToken`; the save is not rolled back). -/
def refreshWritePhase (env : SvcEnv) (p : PendingRotation) (s : Store) :
    Except SvcError RefreshTokenResponse × Store :=
  if env.fails.updateFails then (.error .storeError, s)
  else
    let s1 := tokenRepositoryImpl.UpdateRefreshToken s (rotatedRecord env p.storedToken)
    if env.fails.createFails then (.error .failedToCreateRefreshToken, s1)
    else
      (.ok (refreshResponse env),
       tokenRepositoryImpl.CreateRefreshToken s1 (newFamilyRecord env p.storedToken p.user))

/-- `userServiceImpl.RefreshToken`: the read phase followed immediately by the
write phase on the same store. -/
def userServiceImpl.RefreshToken (env : SvcEnv) (s : Store) (presented : String) :
    Except SvcError RefreshTokenResponse × Store :=
  match refreshReadPhase env s presented with
  | (.error e, s1) => (.error e, s1)
  | (.ok p, s1) => refreshWritePhase env p s1

/-- `userServiceImpl.Login`: find the user by email and check the password
(any failure of either becomes `ErrInvalidCredentials`), generate the pair and
a fresh family id, persist the new record — a failed insert fails the whole
login with `ErrFailedToCreateRefreshToken` — and return the pair. -/
def userServiceImpl.Login (env : SvcEnv) (s : Store) :
    Except SvcError LoginResponse × Store :=
  match env.userLookup with
  | none => (.error .invalidCredentials, s)
  | some user =>
    if !env.passwordOk then (.error .invalidCredentials, s)
    else if env.genFails then (.error .failedToGenerateToken, s)
    else if env.fails.createFails then (.error .failedToCreateRefreshToken, s)
    else
      (.ok { userID := user.id, accessToken := env.newAccessToken,
             refreshToken := env.newRefreshSecret, expiresIn := env.accessTokenExpiry,
             tokenType := "Bearer" },
       tokenRepositoryImpl.CreateRefreshToken s
         { id := env.newRecordID, userID := user.id, token := env.newRefreshSecret,
           tokenFamily := env.newTokenFamily, expiresAt := env.now + env.refreshTokenExpiry,
           isRevoked := false, revokedAt := none, replacedBy := none })

/-- `userServiceImpl.Logout`: if a refresh token was supplied, revoke that
single record, discarding any error of the revoke call; the "revoke all user
tokens" path is commented out in the source; always return success. The
blacklist is never written. -/
def userServiceImpl.Logout (env : SvcEnv) (s : Store) (userID : Nat)
    (refreshToken : String) : Except SvcError Unit × Store :=
  if refreshToken ≠ "" then
    (.ok (),
      if env.fails.revokeTokenFails then s
      else tokenRepositoryImpl.RevokeRefreshToken s refreshToken env.now)
  else (.ok (), s)

/-- One interleaving of two concurrent `RefreshToken` calls on the same
presented token, at the granularity of the atomic store operations the code
issues (one read, then two independent writes, with no lock held in between):
both calls run their read phase before either runs its writes — realizable
under read-committed isolation, since `UpdateRefreshToken` is an unconditional
save by primary key. -/
def refreshRaceBothReadFirst (env1 env2 : SvcEnv) (s : Store) (presented : String) :
    Except SvcError RefreshTokenResponse × Except SvcError RefreshTokenResponse × Store :=
  let a := refreshReadPhase env1 s presented
  let b := refreshReadPhase env2 a.2 presented
  match a.1, b.1 with
  | .ok p1, .ok p2 =>
    let w1 := refreshWritePhase env1 p1 b.2
    let w2 := refreshWritePhase env2 p2 w1.2
    (w1.1, w2.1, w2.2)
  | .ok p1, .error e2 =>
    let w1 := refreshWritePhase env1 p1 b.2
    (w1.1, .error e2, w1.2)
  | .error e1, .ok p2 =>
    let w2 := refreshWritePhase env2 p2 b.2
    (.error e1, w2.1, w2.2)
  | .error e1, .error e2 => (.error e1, .error e2, b.2)

/-! ## Run characterizations of `userServiceImpl.RefreshToken` -/

/-- When the database lookup itself fails, the call still answers
`ErrInvalidRefreshToken` and leaves the store unchanged. -/
theorem refresh_run_findfail (env : SvcEnv) (s : Store) (t : String)
    (hf : env.fails.findRTFails = true) :
    userServiceImpl.RefreshToken env s t = (.error .invalidRefreshToken, s) := by
  simp [userServiceImpl.RefreshToken, refreshReadPhase,
    tokenRepositoryImpl.FindRefreshTokenByToken, hf]

/-- When no record carries the presented token, the call answers
`ErrInvalidRefreshToken` and leaves the store unchanged. -/
theorem refresh_run_notfound (env : SvcEnv) (s : Store) (t : String)
    (hf : env.fails.findRTFails = false)
    (hfind : s.refreshTokens.find? (fun r => r.token == t) = none) :
    userServiceImpl.RefreshToken env s t = (.error .invalidRefreshToken, s) := by
  simp [userServiceImpl.RefreshToken, refreshReadPhase,
    tokenRepositoryImpl.FindRefreshTokenByToken, hf, hfind]

/-- The reuse branch: found and revoked, the family-revocation write succeeds. -/
theorem refresh_run_reuse (env : SvcEnv) (s : Store) (t : String) (r : RefreshToken)
    (hfind : tokenRepositoryImpl.FindRefreshTokenByToken s t env.fails.findRTFails = .ok r)
    (hrev : r.isRevoked = true)
    (hfam : env.fails.revokeFamilyFails = false) :
    userServiceImpl.RefreshToken env s t =
      (.error .tokenReused, tokenRepositoryImpl.RevokeTokenFamily s r.tokenFamily env.now) := by
  simp [userServiceImpl.RefreshToken, refreshReadPhase, hfind,
    RefreshToken.IsValid, hrev, hfam]

/-- The reuse branch when the family-revocation write fails: its error is
discarded, the call still answers `ErrTokenReused`, the store is unchanged. -/
theorem refresh_run_reuse_revokefail (env : SvcEnv) (s : Store) (t : String) (r : RefreshToken)
    (hfind : tokenRepositoryImpl.FindRefreshTokenByToken s t env.fails.findRTFails = .ok r)
    (hrev : r.isRevoked = true)
    (hfam : env.fails.revokeFamilyFails = true) :
    userServiceImpl.RefreshToken env s t = (.error .tokenReused, s) := by
  simp [userServiceImpl.RefreshToken, refreshReadPhase, hfind,
    RefreshToken.IsValid, hrev, hfam]

/-- The expiry branch: found, not revoked, past `expires_at`. -/
theorem refresh_run_expired (env : SvcEnv) (s : Store) (t : String) (r : RefreshToken)
    (hfind : tokenRepositoryImpl.FindRefreshTokenByToken s t env.fails.findRTFails = .ok r)
    (hrev : r.isRevoked = false)
    (hexp : r.expiresAt ≤ env.now) :
    userServiceImpl.RefreshToken env s t = (.error .tokenExpired, s) := by
  simp [userServiceImpl.RefreshToken, refreshReadPhase, hfind,
    RefreshToken.IsValid, hrev, Nat.not_lt.mpr hexp]

/-- The successful rotation: found, active, unexpired, all collaborators
succeed. -/
theorem refresh_run_success (env : SvcEnv) (s : Store) (t : String)
    (r : RefreshToken) (u : User)
    (hfind : tokenRepositoryImpl.FindRefreshTokenByToken s t env.fails.findRTFails = .ok r)
    (hvalid : r.IsValid env.now = true)
    (huser : env.userLookup = some u)
    (hgen : env.genFails = false)
    (hupd : env.fails.updateFails = false)
    (hcre : env.fails.createFails = false) :
    userServiceImpl.RefreshToken env s t =
      (.ok (refreshResponse env),
       tokenRepositoryImpl.CreateRefreshToken
         (tokenRepositoryImpl.UpdateRefreshToken s (rotatedRecord env r))
         (newFamilyRecord env r u)) := by
  simp [userServiceImpl.RefreshToken, refreshReadPhase, refreshWritePhase, hfind,
    hvalid, huser, hgen, hupd, hcre]

/-- The half-rotated failure path: the save of the revoked record succeeds,
the insert of the new record fails; the call errors and the save stands. -/
theorem refresh_run_createfail (env : SvcEnv) (s : Store) (t : String)
    (r : RefreshToken) (u : User)
    (hfind : tokenRepositoryImpl.FindRefreshTokenByToken s t env.fails.findRTFails = .ok r)
    (hvalid : r.IsValid env.now = true)
    (huser : env.userLookup = some u)
    (hgen : env.genFails = false)
    (hupd : env.fails.updateFails = false)
    (hcre : env.fails.createFails = true) :
    userServiceImpl.RefreshToken env s t =
      (.error .failedToCreateRefreshToken,
       tokenRepositoryImpl.UpdateRefreshToken s (rotatedRecord env r)) := by
  simp [userServiceImpl.RefreshToken, refreshReadPhase, refreshWritePhase, hfind,
    hvalid, huser, hgen, hupd, hcre]

/-! ## Store-level helper lemmas -/

/-- After `RevokeTokenFamily`, every record of that family is revoked. -/
theorem revokeTokenFamily_all_revoked (s : Store) (fam : String) (now : Nat) :
    ∀ rec ∈ (tokenRepositoryImpl.RevokeTokenFamily s fam now).refreshTokens,
      rec.tokenFamily = fam → rec.isRevoked = true := by
  intro rec hmem hfam
  simp only [tokenRepositoryImpl.RevokeTokenFamily, List.mem_map] at hmem
  obtain ⟨x, hx, hrec⟩ := hmem
  by_cases hc : (x.tokenFamily == fam && !x.isRevoked) = true
  · rw [if_pos hc] at hrec
    rw [← hrec]
  · rw [if_neg hc] at hrec
    subst hrec
    simp only [Bool.and_eq_true, beq_iff_eq, Bool.not_eq_true', not_and] at hc
    simpa using hc hfam

/-- A successful `FindRefreshTokenByToken` is the underlying `find?`. -/
theorem find_ok_iff (s : Store) (t : String) (fail : Bool) (r : RefreshToken) :
    tokenRepositoryImpl.FindRefreshTokenByToken s t fail = .ok r ↔
      fail = false ∧ s.refreshTokens.find? (fun x => x.token == t) = some r := by
  cases fail with
  | true => simp [tokenRepositoryImpl.FindRefreshTokenByToken]
  | false =>
    simp only [tokenRepositoryImpl.FindRefreshTokenByToken, Bool.false_eq_true,
      if_false, true_and]
    cases hfind : s.refreshTokens.find? (fun x => x.token == t) <;> simp

/-- The record a successful lookup returns is in the store and carries the
presented token string. -/
theorem find_ok_mem_token (s : Store) (t : String) (fail : Bool) (r : RefreshToken)
    (h : tokenRepositoryImpl.FindRefreshTokenByToken s t fail = .ok r) :
    r ∈ s.refreshTokens ∧ r.token = t := by
  obtain ⟨-, hfind⟩ := (find_ok_iff s t fail r).mp h
  refine ⟨List.mem_of_find?_eq_some hfind, ?_⟩
  have := List.find?_some hfind
  simpa using this

/-- Lookup of the rotated token after the two writes of a successful rotation:
if ids are unique in the store, the lookup now returns the presented record
with its rotation fields set (still carrying the same token string, now
revoked); the appended new record sits behind it in lookup order. -/
theorem find_after_rotation (l : List RefreshToken) (t : String) (r : RefreshToken)
    (hfind : l.find? (fun x => x.token == t) = some r)
    (hid : ∀ a ∈ l, a.id = r.id → a = r)
    (updated : RefreshToken) (hupdid : updated.id = r.id) (hupdtok : updated.token = t)
    (newRec : RefreshToken) :
    ((l.map fun x => if x.id == updated.id then updated else x) ++ [newRec]).find?
        (fun x => x.token == t) = some updated := by
  rw [List.find?_append]
  have hmain : (l.map fun x => if x.id == updated.id then updated else x).find?
      (fun x => x.token == t) = some updated := by
    induction l with
    | nil => simp at hfind
    | cons h0 tl ih =>
      by_cases hp : (h0.token == t) = true
      · simp only [List.find?_cons, hp, Option.some.injEq] at hfind
        subst hfind
        have hcond : (h0.id == updated.id) = true := by
          simp [hupdid]
        simp only [List.map_cons, hcond, if_true, List.find?_cons, hupdtok]
        simp
      · simp only [List.find?_cons, Bool.not_eq_true] at hp
        simp only [List.find?_cons, hp] at hfind
        have hne : h0.id ≠ r.id := by
          intro heq
          have hh0 : h0 = r := hid h0 (List.mem_cons_self h0 tl) heq
          subst hh0
          have hsat : (h0.token == t) = true := by
            have := List.find?_some hfind
            simpa using this
          simp [hsat] at hp
        have hcond : (h0.id == updated.id) = false := by
          simp [hupdid, hne]
        simp only [List.map_cons]
        rw [show (if (h0.id == updated.id) = true then updated else h0) = h0 by
          simp [hcond]]
        simp only [List.find?_cons, hp]
        exact ih hfind (fun a ha => hid a (List.mem_cons_of_mem h0 ha))
  rw [hmain]
  rfl

/-- The user-lookup failure branch: found, active, but `FindByID` fails. -/
theorem refresh_run_usernotfound (env : SvcEnv) (s : Store) (t : String) (r : RefreshToken)
    (hfind : tokenRepositoryImpl.FindRefreshTokenByToken s t env.fails.findRTFails = .ok r)
    (hvalid : r.IsValid env.now = true)
    (huser : env.userLookup = none) :
    userServiceImpl.RefreshToken env s t = (.error .userNotFound, s) := by
  simp [userServiceImpl.RefreshToken, refreshReadPhase, hfind, hvalid, huser]

/-- The token-generation failure branch. -/
theorem refresh_run_genfail (env : SvcEnv) (s : Store) (t : String)
    (r : RefreshToken) (u : User)
    (hfind : tokenRepositoryImpl.FindRefreshTokenByToken s t env.fails.findRTFails = .ok r)
    (hvalid : r.IsValid env.now = true)
    (huser : env.userLookup = some u)
    (hgen : env.genFails = true) :
    userServiceImpl.RefreshToken env s t = (.error .failedToGenerateToken, s) := by
  simp [userServiceImpl.RefreshToken, refreshReadPhase, hfind, hvalid, huser, hgen]

/-- The update-write failure branch: the raw store error is passed through and
the store is unchanged. -/
theorem refresh_run_updatefail (env : SvcEnv) (s : Store) (t : String)
    (r : RefreshToken) (u : User)
    (hfind : tokenRepositoryImpl.FindRefreshTokenByToken s t env.fails.findRTFails = .ok r)
    (hvalid : r.IsValid env.now = true)
    (huser : env.userLookup = some u)
    (hgen : env.genFails = false)
    (hupd : env.fails.updateFails = true) :
    userServiceImpl.RefreshToken env s t = (.error .storeError, s) := by
  simp [userServiceImpl.RefreshToken, refreshReadPhase, refreshWritePhase, hfind,
    hvalid, huser, hgen, hupd]

/-- When the presented record is found and is not revoked, the call never
answers `ErrInvalidRefreshToken` or `ErrTokenReused`, whatever else happens. -/
theorem refresh_found_active_result (env : SvcEnv) (s : Store) (t : String)
    (r : RefreshToken)
    (hf : env.fails.findRTFails = false)
    (hfind : s.refreshTokens.find? (fun x => x.token == t) = some r)
    (hrev : r.isRevoked = false) :
    (userServiceImpl.RefreshToken env s t).1 ≠ .error .invalidRefreshToken ∧
    (userServiceImpl.RefreshToken env s t).1 ≠ .error .tokenReused := by
  have hfo : tokenRepositoryImpl.FindRefreshTokenByToken s t env.fails.findRTFails = .ok r :=
    (find_ok_iff s t env.fails.findRTFails r).mpr ⟨hf, hfind⟩
  by_cases hexp : env.now < r.expiresAt
  · have hvalid : r.IsValid env.now = true := by
      simp [RefreshToken.IsValid, hrev, hexp]
    cases huser : env.userLookup with
    | none => rw [refresh_run_usernotfound env s t r hfo hvalid huser]; simp
    | some u =>
      by_cases hgen : env.genFails = true
      · rw [refresh_run_genfail env s t r u hfo hvalid huser hgen]; simp
      · have hgen' : env.genFails = false := by simpa using hgen
        by_cases hupd : env.fails.updateFails = true
        · rw [refresh_run_updatefail env s t r u hfo hvalid huser hgen' hupd]; simp
        · have hupd' : env.fails.updateFails = false := by simpa using hupd
          by_cases hcre : env.fails.createFails = true
          · rw [refresh_run_createfail env s t r u hfo hvalid huser hgen' hupd' hcre]; simp
          · have hcre' : env.fails.createFails = false := by simpa using hcre
            rw [refresh_run_success env s t r u hfo hvalid huser hgen' hupd' hcre']; simp
  · have hexp' : r.expiresAt ≤ env.now := Nat.le_of_not_lt hexp
    rw [refresh_run_expired env s t r hfo hrev hexp']; simp

/-! ## Claim theorems -/

/-- C7: whenever the presented token is found, not revoked, but `now` is at or
past `expires_at`, `RefreshToken` fails with `ErrTokenExpired` and performs no
store mutation at all — plain expiry triggers no family revocation. -/
theorem refresh_expired_no_family_action (env : SvcEnv) (s : Store) (t : String)
    (r : RefreshToken)
    (hfind : tokenRepositoryImpl.FindRefreshTokenByToken s t env.fails.findRTFails = .ok r)
    (hrev : r.isRevoked = false)
    (hexp : r.expiresAt ≤ env.now) :
    userServiceImpl.RefreshToken env s t = (.error .tokenExpired, s) :=
  refresh_run_expired env s t r hfind hrev hexp

/-- Witness for C7 at a concrete store: one unrevoked record that expired at
time 100, presented at time 200. -/
theorem refresh_expired_no_family_action_witness :
    userServiceImpl.RefreshToken
      ⟨200, 900, 3600, "at1", "rt1", "famX", 2, some ⟨7, "bob", "b@x", "pw"⟩, true, false,
        ⟨false, false, false, false, false⟩⟩
      ⟨[⟨1, 7, "rt0", "fam", 100, false, none, none⟩], []⟩ "rt0" =
      (.error .tokenExpired, ⟨[⟨1, 7, "rt0", "fam", 100, false, none, none⟩], []⟩) :=
  refresh_expired_no_family_action _ _ _ ⟨1, 7, "rt0", "fam", 100, false, none, none⟩
    rfl (by decide) (by decide)

/-- C8: when persisting the new refresh-token record fails during `Login`, the
whole login fails with `ErrFailedToCreateRefreshToken` and no credential pair
is returned — the store is left unchanged. -/
theorem login_fails_when_persist_fails (env : SvcEnv) (s : Store) (u : User)
    (huser : env.userLookup = some u)
    (hpw : env.passwordOk = true)
    (hgen : env.genFails = false)
    (hcre : env.fails.createFails = true) :
    userServiceImpl.Login env s = (.error .failedToCreateRefreshToken, s) := by
  simp [userServiceImpl.Login, huser, hpw, hgen, hcre]

/-- Witness for C8 at a concrete environment where the insert fails. -/
theorem login_fails_when_persist_fails_witness :
    userServiceImpl.Login
      ⟨50, 900, 3600, "at1", "rt1", "fam1", 2, some ⟨7, "bob", "b@x", "pw"⟩, true, false,
        ⟨false, false, true, false, false⟩⟩
      ⟨[], []⟩ =
      (.error .failedToCreateRefreshToken, ⟨[], []⟩) :=
  login_fails_when_persist_fails _ _ ⟨7, "bob", "b@x", "pw"⟩
    (by decide) (by decide) (by decide) (by decide)

/-- C9: `Logout` is total and idempotent in its visible outcome: for every
store, user id and presented refresh-token string — present, absent or already
revoked, and even when the revoke write fails — it returns success, and a
second call with the same token returns success again. -/
theorem logout_total_and_idempotent (env1 env2 : SvcEnv) (s : Store)
    (uid : Nat) (tok : String) :
    (userServiceImpl.Logout env1 s uid tok).1 = .ok () ∧
    (userServiceImpl.Logout env2 (userServiceImpl.Logout env1 s uid tok).2 uid tok).1 =
      .ok () := by
  constructor <;> (unfold userServiceImpl.Logout; split <;> rfl)

/-- Witness for C9: double logout of an already-revoked token answers success
both times. -/
theorem logout_total_and_idempotent_witness :
    (userServiceImpl.Logout
      ⟨50, 900, 3600, "at1", "rt1", "fam1", 2, none, false, false,
        ⟨false, false, false, false, false⟩⟩
      ⟨[⟨1, 7, "rt0", "fam", 100, true, some 10, none⟩], []⟩ 7 "rt0").1 = .ok () ∧
    (userServiceImpl.Logout
      ⟨60, 900, 3600, "at1", "rt1", "fam1", 2, none, false, false,
        ⟨false, false, false, false, false⟩⟩
      (userServiceImpl.Logout
        ⟨50, 900, 3600, "at1", "rt1", "fam1", 2, none, false, false,
          ⟨false, false, false, false, false⟩⟩
        ⟨[⟨1, 7, "rt0", "fam", 100, true, some 10, none⟩], []⟩ 7 "rt0").2 7 "rt0").1 =
      .ok () :=
  logout_total_and_idempotent _ _ _ 7 "rt0"

/-- C6: a successful rotation returns the new pair and leaves exactly the
intended store effects: a new record with the same family, the fresh secret
and `expires_at = now + refresh TTL` is persisted, and the presented record is
saved with `is_revoked = true`, `revoked_at = now` and `replaced_by` set to
the new secret. -/
theorem refresh_success_rotation_effects (env : SvcEnv) (s : Store) (t : String)
    (r : RefreshToken) (u : User)
    (hfind : tokenRepositoryImpl.FindRefreshTokenByToken s t env.fails.findRTFails = .ok r)
    (hvalid : r.IsValid env.now = true)
    (huser : env.userLookup = some u)
    (hgen : env.genFails = false)
    (hupd : env.fails.updateFails = false)
    (hcre : env.fails.createFails = false)
    (hnid : env.newRecordID ≠ r.id) :
    (userServiceImpl.RefreshToken env s t).1 =
      .ok ⟨env.newAccessToken, env.newRefreshSecret, env.accessTokenExpiry, "Bearer"⟩ ∧
    (∃ rec ∈ (userServiceImpl.RefreshToken env s t).2.refreshTokens,
        rec.token = env.newRefreshSecret ∧ rec.tokenFamily = r.tokenFamily ∧
        rec.expiresAt = env.now + env.refreshTokenExpiry ∧ rec.isRevoked = false) ∧
    (∀ rec ∈ (userServiceImpl.RefreshToken env s t).2.refreshTokens,
        rec.id = r.id →
          rec.isRevoked = true ∧ rec.revokedAt = some env.now ∧
          rec.replacedBy = some env.newRefreshSecret) := by
  rw [refresh_run_success env s t r u hfind hvalid huser hgen hupd hcre]
  refine ⟨rfl, ⟨newFamilyRecord env r u, ?_, rfl, rfl, rfl, rfl⟩, ?_⟩
  · simp [tokenRepositoryImpl.CreateRefreshToken, tokenRepositoryImpl.UpdateRefreshToken]
  · intro rec hmem hidr
    simp only [tokenRepositoryImpl.CreateRefreshToken,
      tokenRepositoryImpl.UpdateRefreshToken, List.mem_append, List.mem_map,
      List.mem_singleton] at hmem
    rcases hmem with ⟨x, hx, hxe⟩ | hnew
    · by_cases hc : (x.id == (rotatedRecord env r).id) = true
      · rw [if_pos hc] at hxe
        rw [← hxe]
        exact ⟨rfl, rfl, rfl⟩
      · rw [if_neg hc] at hxe
        exfalso
        apply hc
        rw [hxe]
        simp [rotatedRecord, hidr]
    · exfalso
      apply hnid
      rw [← hidr, hnew]
      rfl

/-- Witness for C6: rotating an active record at time 50 in a one-record
store. -/
theorem refresh_success_rotation_effects_witness :
    (userServiceImpl.RefreshToken
      ⟨50, 900, 3600, "at1", "rt1", "famX", 2, some ⟨7, "bob", "b@x", "pw"⟩, true, false,
        ⟨false, false, false, false, false⟩⟩
      ⟨[⟨1, 7, "rt0", "fam", 100, false, none, none⟩], []⟩ "rt0").1 =
      .ok ⟨"at1", "rt1", 900, "Bearer"⟩ ∧
    (∃ rec ∈ (userServiceImpl.RefreshToken
      ⟨50, 900, 3600, "at1", "rt1", "famX", 2, some ⟨7, "bob", "b@x", "pw"⟩, true, false,
        ⟨false, false, false, false, false⟩⟩
      ⟨[⟨1, 7, "rt0", "fam", 100, false, none, none⟩], []⟩ "rt0").2.refreshTokens,
        rec.token = "rt1" ∧ rec.tokenFamily = "fam" ∧
        rec.expiresAt = 50 + 3600 ∧ rec.isRevoked = false) ∧
    (∀ rec ∈ (userServiceImpl.RefreshToken
      ⟨50, 900, 3600, "at1", "rt1", "famX", 2, some ⟨7, "bob", "b@x", "pw"⟩, true, false,
        ⟨false, false, false, false, false⟩⟩
      ⟨[⟨1, 7, "rt0", "fam", 100, false, none, none⟩], []⟩ "rt0").2.refreshTokens,
        rec.id = 1 →
          rec.isRevoked = true ∧ rec.revokedAt = some 50 ∧
          rec.replacedBy = some "rt1") :=
  refresh_success_rotation_effects _ _ _ ⟨1, 7, "rt0", "fam", 100, false, none, none⟩
    ⟨7, "bob", "b@x", "pw"⟩ rfl (by decide) (by decide) (by decide) (by decide)
    (by decide) (by decide)

/-- C10: when the save revoking the presented record succeeds but the insert
of the replacement fails, the call errors with `ErrFailedToCreateRefreshToken`
and the store keeps the presented record revoked while holding no record with
the new secret — the rotation is not rolled back. -/
theorem refresh_createfail_leaves_revoked (env : SvcEnv) (s : Store) (t : String)
    (r : RefreshToken) (u : User)
    (hfind : tokenRepositoryImpl.FindRefreshTokenByToken s t env.fails.findRTFails = .ok r)
    (hvalid : r.IsValid env.now = true)
    (huser : env.userLookup = some u)
    (hgen : env.genFails = false)
    (hupd : env.fails.updateFails = false)
    (hcre : env.fails.createFails = true)
    (hfresh : ∀ a ∈ s.refreshTokens, a.token ≠ env.newRefreshSecret) :
    (userServiceImpl.RefreshToken env s t).1 = .error .failedToCreateRefreshToken ∧
    (∀ rec ∈ (userServiceImpl.RefreshToken env s t).2.refreshTokens,
        rec.id = r.id →
          rec.isRevoked = true ∧ rec.revokedAt = some env.now ∧
          rec.replacedBy = some env.newRefreshSecret) ∧
    (∀ rec ∈ (userServiceImpl.RefreshToken env s t).2.refreshTokens,
        rec.token ≠ env.newRefreshSecret) := by
  have hrmem := (find_ok_mem_token s t env.fails.findRTFails r hfind).1
  rw [refresh_run_createfail env s t r u hfind hvalid huser hgen hupd hcre]
  refine ⟨rfl, ?_, ?_⟩
  · intro rec hmem hidr
    simp only [tokenRepositoryImpl.UpdateRefreshToken, List.mem_map] at hmem
    obtain ⟨x, hx, hxe⟩ := hmem
    by_cases hc : (x.id == (rotatedRecord env r).id) = true
    · rw [if_pos hc] at hxe
      rw [← hxe]
      exact ⟨rfl, rfl, rfl⟩
    · rw [if_neg hc] at hxe
      exfalso
      apply hc
      rw [hxe]
      simp [rotatedRecord, hidr]
  · intro rec hmem
    simp only [tokenRepositoryImpl.UpdateRefreshToken, List.mem_map] at hmem
    obtain ⟨x, hx, hxe⟩ := hmem
    by_cases hc : (x.id == (rotatedRecord env r).id) = true
    · rw [if_pos hc] at hxe
      rw [← hxe]
      exact hfresh r hrmem
    · rw [if_neg hc] at hxe
      rw [← hxe]
      exact hfresh x hx

/-- Witness for C10: the insert fails at time 50; the presented record ends
revoked and the fresh secret is nowhere in the store. -/
theorem refresh_createfail_leaves_revoked_witness :
    (userServiceImpl.RefreshToken
      ⟨50, 900, 3600, "at1", "rt1", "famX", 2, some ⟨7, "bob", "b@x", "pw"⟩, true, false,
        ⟨false, false, true, false, false⟩⟩
      ⟨[⟨1, 7, "rt0", "fam", 100, false, none, none⟩], []⟩ "rt0").1 =
      .error .failedToCreateRefreshToken ∧
    (∀ rec ∈ (userServiceImpl.RefreshToken
      ⟨50, 900, 3600, "at1", "rt1", "famX", 2, some ⟨7, "bob", "b@x", "pw"⟩, true, false,
        ⟨false, false, true, false, false⟩⟩
      ⟨[⟨1, 7, "rt0", "fam", 100, false, none, none⟩], []⟩ "rt0").2.refreshTokens,
        rec.id = 1 →
          rec.isRevoked = true ∧ rec.revokedAt = some 50 ∧
          rec.replacedBy = some "rt1") ∧
    (∀ rec ∈ (userServiceImpl.RefreshToken
      ⟨50, 900, 3600, "at1", "rt1", "famX", 2, some ⟨7, "bob", "b@x", "pw"⟩, true, false,
        ⟨false, false, true, false, false⟩⟩
      ⟨[⟨1, 7, "rt0", "fam", 100, false, none, none⟩], []⟩ "rt0").2.refreshTokens,
        rec.token ≠ "rt1") :=
  refresh_createfail_leaves_revoked _ _ _ ⟨1, 7, "rt0", "fam", 100, false, none, none⟩
    ⟨7, "bob", "b@x", "pw"⟩ rfl (by decide) (by decide) (by decide) (by decide)
    (by decide) (by decide)

/-- Rotating an active record and then presenting the same token again: the
first call succeeds and the second takes the reuse path. Ids are assumed
unique in the store (the primary key). -/
theorem refresh_then_represent_reused (env1 env2 : SvcEnv) (s : Store) (t : String)
    (r : RefreshToken) (u : User)
    (hfind : tokenRepositoryImpl.FindRefreshTokenByToken s t env1.fails.findRTFails = .ok r)
    (hvalid : r.IsValid env1.now = true)
    (huser : env1.userLookup = some u)
    (hgen : env1.genFails = false)
    (hupd : env1.fails.updateFails = false)
    (hcre : env1.fails.createFails = false)
    (hid : ∀ a ∈ s.refreshTokens, a.id = r.id → a = r)
    (hf2 : env2.fails.findRTFails = false)
    (hfam2 : env2.fails.revokeFamilyFails = false) :
    (userServiceImpl.RefreshToken env1 s t).1 = .ok (refreshResponse env1) ∧
    (userServiceImpl.RefreshToken env2 (userServiceImpl.RefreshToken env1 s t).2 t).1 =
      .error .tokenReused := by
  have hrun := refresh_run_success env1 s t r u hfind hvalid huser hgen hupd hcre
  obtain ⟨hf1, hfind1⟩ := (find_ok_iff s t env1.fails.findRTFails r).mp hfind
  have hrtok := (find_ok_mem_token s t env1.fails.findRTFails r hfind).2
  rw [hrun]
  refine ⟨rfl, ?_⟩
  have hfind2 : tokenRepositoryImpl.FindRefreshTokenByToken
      (tokenRepositoryImpl.CreateRefreshToken
        (tokenRepositoryImpl.UpdateRefreshToken s (rotatedRecord env1 r))
        (newFamilyRecord env1 r u)) t env2.fails.findRTFails = .ok (rotatedRecord env1 r) := by
    rw [find_ok_iff]
    refine ⟨hf2, ?_⟩
    simp only [tokenRepositoryImpl.CreateRefreshToken, tokenRepositoryImpl.UpdateRefreshToken]
    exact find_after_rotation s.refreshTokens t r hfind1 hid (rotatedRecord env1 r) rfl
      hrtok (newFamilyRecord env1 r u)
  rw [refresh_run_reuse env2 _ t (rotatedRecord env1 r) hfind2 rfl hfam2]

/-- C1: a presented token found with `is_revoked = true` makes the call fail
with `ErrTokenReused` after revoking every record of that family; and once a
token has been successfully rotated, presenting it again fails with
`ErrTokenReused`. -/
theorem refresh_reuse_revokes_family_and_single_use :
    (∀ env : SvcEnv, ∀ s : Store, ∀ t : String, ∀ r : RefreshToken,
      tokenRepositoryImpl.FindRefreshTokenByToken s t env.fails.findRTFails = .ok r →
      r.isRevoked = true →
      env.fails.revokeFamilyFails = false →
      (userServiceImpl.RefreshToken env s t).1 = .error .tokenReused ∧
      ∀ rec ∈ (userServiceImpl.RefreshToken env s t).2.refreshTokens,
        rec.tokenFamily = r.tokenFamily → rec.isRevoked = true) ∧
    (∀ env1 env2 : SvcEnv, ∀ s : Store, ∀ t : String, ∀ r : RefreshToken, ∀ u : User,
      tokenRepositoryImpl.FindRefreshTokenByToken s t env1.fails.findRTFails = .ok r →
      r.IsValid env1.now = true →
      env1.userLookup = some u →
      env1.genFails = false →
      env1.fails.updateFails = false →
      env1.fails.createFails = false →
      (∀ a ∈ s.refreshTokens, a.id = r.id → a = r) →
      env2.fails.findRTFails = false →
      env2.fails.revokeFamilyFails = false →
      (userServiceImpl.RefreshToken env2 (userServiceImpl.RefreshToken env1 s t).2 t).1 =
        .error .tokenReused) := by
  constructor
  · intro env s t r hfind hrev hfam
    rw [refresh_run_reuse env s t r hfind hrev hfam]
    exact ⟨rfl, revokeTokenFamily_all_revoked s r.tokenFamily env.now⟩
  · intro env1 env2 s t r u hfind hvalid huser hgen hupd hcre hid hf2 hfam2
    exact (refresh_then_represent_reused env1 env2 s t r u hfind hvalid huser hgen hupd
      hcre hid hf2 hfam2).2

/-- Witness for C1: reuse of a revoked record revokes its whole family, and a
token rotated at time 50 fails with the reuse error when presented again. -/
theorem refresh_reuse_revokes_family_and_single_use_witness :
    ((userServiceImpl.RefreshToken
        ⟨50, 900, 3600, "at1", "rt1", "famX", 3, some ⟨7, "bob", "b@x", "pw"⟩, true, false,
          ⟨false, false, false, false, false⟩⟩
        ⟨[⟨1, 7, "rt0", "fam", 100, true, some 10, none⟩,
          ⟨2, 7, "rtA", "fam", 150, false, none, none⟩], []⟩ "rt0").1 =
        .error .tokenReused ∧
      ∀ rec ∈ (userServiceImpl.RefreshToken
        ⟨50, 900, 3600, "at1", "rt1", "famX", 3, some ⟨7, "bob", "b@x", "pw"⟩, true, false,
          ⟨false, false, false, false, false⟩⟩
        ⟨[⟨1, 7, "rt0", "fam", 100, true, some 10, none⟩,
          ⟨2, 7, "rtA", "fam", 150, false, none, none⟩], []⟩ "rt0").2.refreshTokens,
        rec.tokenFamily = "fam" → rec.isRevoked = true) ∧
    (userServiceImpl.RefreshToken
      ⟨60, 900, 3600, "at2", "rt2", "famY", 9, some ⟨7, "bob", "b@x", "pw"⟩, true, false,
        ⟨false, false, false, false, false⟩⟩
      (userServiceImpl.RefreshToken
        ⟨50, 900, 3600, "at1", "rt1", "famX", 2, some ⟨7, "bob", "b@x", "pw"⟩, true, false,
          ⟨false, false, false, false, false⟩⟩
        ⟨[⟨1, 7, "rt0", "fam", 100, false, none, none⟩], []⟩ "rt0").2 "rt0").1 =
      .error .tokenReused :=
  ⟨refresh_reuse_revokes_family_and_single_use.1 _ _ "rt0"
      ⟨1, 7, "rt0", "fam", 100, true, some 10, none⟩ rfl (by decide) (by decide),
   refresh_reuse_revokes_family_and_single_use.2 _ _ _ "rt0"
      ⟨1, 7, "rt0", "fam", 100, false, none, none⟩ ⟨7, "bob", "b@x", "pw"⟩ rfl
      (by decide) (by decide) (by decide) (by decide) (by decide) (by decide)
      (by decide) (by decide)⟩

/-- Counterexample for C3: under the interleaving in which both calls execute
their store read before either performs its writes — realizable because the
revocation is an unconditional save by primary key, with no conditional-write
guard and no lock spanning the read and the writes — both concurrent
`RefreshToken` calls on the same valid token succeed. -/
theorem refresh_race_two_successes :
    (refreshRaceBothReadFirst
      ⟨50, 900, 3600, "at1", "rt1", "famX", 2, some ⟨7, "bob", "b@x", "pw"⟩, true, false,
        ⟨false, false, false, false, false⟩⟩
      ⟨51, 900, 3600, "at2", "rt2", "famY", 3, some ⟨7, "bob", "b@x", "pw"⟩, true, false,
        ⟨false, false, false, false, false⟩⟩
      ⟨[⟨1, 7, "rt0", "fam", 100, false, none, none⟩], []⟩ "rt0").1 =
      .ok ⟨"at1", "rt1", 900, "Bearer"⟩ ∧
    (refreshRaceBothReadFirst
      ⟨50, 900, 3600, "at1", "rt1", "famX", 2, some ⟨7, "bob", "b@x", "pw"⟩, true, false,
        ⟨false, false, false, false, false⟩⟩
      ⟨51, 900, 3600, "at2", "rt2", "famY", 3, some ⟨7, "bob", "b@x", "pw"⟩, true, false,
        ⟨false, false, false, false, false⟩⟩
      ⟨[⟨1, 7, "rt0", "fam", 100, false, none, none⟩], []⟩ "rt0").2.1 =
      .ok ⟨"at2", "rt2", 900, "Bearer"⟩ :=
  ⟨rfl, rfl⟩

/-- C3 amended: only when the two `RefreshToken` calls on the same valid token
run serially (one completes before the other starts) does the code guarantee
exactly one success: the first call succeeds and the second observes the
revoked record and fails with `ErrTokenReused`. The code itself provides no
conditional write — `UpdateRefreshToken` is an unconditional save by primary
key — so interleaved executions can produce two successes. -/
theorem refresh_serial_one_success_one_reuse (env1 env2 : SvcEnv) (s : Store)
    (t : String) (r : RefreshToken) (u : User)
    (hfind : tokenRepositoryImpl.FindRefreshTokenByToken s t env1.fails.findRTFails = .ok r)
    (hvalid : r.IsValid env1.now = true)
    (huser : env1.userLookup = some u)
    (hgen : env1.genFails = false)
    (hupd : env1.fails.updateFails = false)
    (hcre : env1.fails.createFails = false)
    (hid : ∀ a ∈ s.refreshTokens, a.id = r.id → a = r)
    (hf2 : env2.fails.findRTFails = false)
    (hfam2 : env2.fails.revokeFamilyFails = false) :
    (userServiceImpl.RefreshToken env1 s t).1 = .ok (refreshResponse env1) ∧
    (userServiceImpl.RefreshToken env2 (userServiceImpl.RefreshToken env1 s t).2 t).1 =
      .error .tokenReused :=
  refresh_then_represent_reused env1 env2 s t r u hfind hvalid huser hgen hupd hcre
    hid hf2 hfam2

/-- Witness for the amended C3 at a one-record store. -/
theorem refresh_serial_one_success_one_reuse_witness :
    (userServiceImpl.RefreshToken
      ⟨50, 900, 3600, "at1", "rt1", "famX", 2, some ⟨7, "bob", "b@x", "pw"⟩, true, false,
        ⟨false, false, false, false, false⟩⟩
      ⟨[⟨1, 7, "rt0", "fam", 100, false, none, none⟩], []⟩ "rt0").1 =
      .ok (refreshResponse
        ⟨50, 900, 3600, "at1", "rt1", "famX", 2, some ⟨7, "bob", "b@x", "pw"⟩, true, false,
          ⟨false, false, false, false, false⟩⟩) ∧
    (userServiceImpl.RefreshToken
      ⟨60, 900, 3600, "at2", "rt2", "famY", 9, some ⟨7, "bob", "b@x", "pw"⟩, true, false,
        ⟨false, false, false, false, false⟩⟩
      (userServiceImpl.RefreshToken
        ⟨50, 900, 3600, "at1", "rt1", "famX", 2, some ⟨7, "bob", "b@x", "pw"⟩, true, false,
          ⟨false, false, false, false, false⟩⟩
        ⟨[⟨1, 7, "rt0", "fam", 100, false, none, none⟩], []⟩ "rt0").2 "rt0").1 =
      .error .tokenReused :=
  refresh_serial_one_success_one_reuse _ _ _ "rt0"
    ⟨1, 7, "rt0", "fam", 100, false, none, none⟩ ⟨7, "bob", "b@x", "pw"⟩ rfl
    (by decide) (by decide) (by decide) (by decide) (by decide) (by decide)
    (by decide) (by decide)

/-- Counterexample for C2: (a) when the lookup fails as a database call while
the presented token is present (and active) in the store, the call still
answers `ErrInvalidRefreshToken` — an infrastructure failure surfaced as the
user error; (b) when the presented record is revoked but the family-revocation
write fails, the call still answers `ErrTokenReused` with the store unchanged,
leaving the other active record of the family unrevoked. -/
theorem refresh_error_mapping_counterexample :
    ((userServiceImpl.RefreshToken
        ⟨50, 900, 3600, "at1", "rt1", "famX", 2, some ⟨7, "bob", "b@x", "pw"⟩, true, false,
          ⟨true, false, false, false, false⟩⟩
        ⟨[⟨1, 7, "rt0", "fam", 100, false, none, none⟩], []⟩ "rt0").1 =
        .error .invalidRefreshToken ∧
      (⟨[⟨1, 7, "rt0", "fam", 100, false, none, none⟩], []⟩ :
          Store).refreshTokens.find? (fun r => r.token == "rt0") =
        some ⟨1, 7, "rt0", "fam", 100, false, none, none⟩) ∧
    ((userServiceImpl.RefreshToken
        ⟨50, 900, 3600, "at1", "rt1", "famX", 3, some ⟨7, "bob", "b@x", "pw"⟩, true, false,
          ⟨false, false, false, true, false⟩⟩
        ⟨[⟨1, 7, "rt0", "fam", 100, true, some 10, none⟩,
          ⟨2, 7, "rtA", "fam", 150, false, none, none⟩], []⟩ "rt0").1 =
        .error .tokenReused ∧
      (userServiceImpl.RefreshToken
        ⟨50, 900, 3600, "at1", "rt1", "famX", 3, some ⟨7, "bob", "b@x", "pw"⟩, true, false,
          ⟨false, false, false, true, false⟩⟩
        ⟨[⟨1, 7, "rt0", "fam", 100, true, some 10, none⟩,
          ⟨2, 7, "rtA", "fam", 150, false, none, none⟩], []⟩ "rt0").2 =
        ⟨[⟨1, 7, "rt0", "fam", 100, true, some 10, none⟩,
          ⟨2, 7, "rtA", "fam", 150, false, none, none⟩], []⟩) :=
  ⟨⟨rfl, rfl⟩, ⟨rfl, rfl⟩⟩

/-- C2 amended: `ErrInvalidRefreshToken` is returned exactly when the lookup
reports any error — a missing record and a store failure are collapsed — and
`ErrTokenReused` is returned exactly when the lookup succeeds with a revoked
record, whether or not the family-revocation write was carried out (its error
is discarded). Only the failure of the revoking save is passed through as a
distinct store error. -/
theorem refresh_error_mapping_amended (env : SvcEnv) (s : Store) (t : String) :
    ((userServiceImpl.RefreshToken env s t).1 = .error .invalidRefreshToken ↔
      env.fails.findRTFails = true ∨
        s.refreshTokens.find? (fun r => r.token == t) = none) ∧
    ((userServiceImpl.RefreshToken env s t).1 = .error .tokenReused ↔
      env.fails.findRTFails = false ∧
        ∃ r, s.refreshTokens.find? (fun x => x.token == t) = some r ∧
          r.isRevoked = true) := by
  constructor
  · constructor
    · intro h
      by_cases hf : env.fails.findRTFails = true
      · exact Or.inl hf
      · have hf' : env.fails.findRTFails = false := by simpa using hf
        cases hfind : s.refreshTokens.find? (fun x => x.token == t) with
        | none => exact Or.inr rfl
        | some r =>
          cases hrev : r.isRevoked with
          | true =>
            exfalso
            have hfo : tokenRepositoryImpl.FindRefreshTokenByToken s t
                env.fails.findRTFails = .ok r :=
              (find_ok_iff s t env.fails.findRTFails r).mpr ⟨hf', hfind⟩
            by_cases hfam : env.fails.revokeFamilyFails = true
            · rw [refresh_run_reuse_revokefail env s t r hfo hrev hfam] at h
              simp at h
            · have hfam' : env.fails.revokeFamilyFails = false := by simpa using hfam
              rw [refresh_run_reuse env s t r hfo hrev hfam'] at h
              simp at h
          | false =>
            exact absurd h (refresh_found_active_result env s t r hf' hfind hrev).1
    · intro h
      by_cases hf : env.fails.findRTFails = true
      · rw [refresh_run_findfail env s t hf]
      · have hf' : env.fails.findRTFails = false := by simpa using hf
        rcases h with hft | hfind
        · exact absurd hft hf
        · rw [refresh_run_notfound env s t hf' hfind]
  · constructor
    · intro h
      by_cases hf : env.fails.findRTFails = true
      · rw [refresh_run_findfail env s t hf] at h
        simp at h
      · have hf' : env.fails.findRTFails = false := by simpa using hf
        cases hfind : s.refreshTokens.find? (fun x => x.token == t) with
        | none =>
          rw [refresh_run_notfound env s t hf' hfind] at h
          simp at h
        | some r =>
          cases hrev : r.isRevoked with
          | true => exact ⟨hf', r, rfl, hrev⟩
          | false =>
            exact absurd h (refresh_found_active_result env s t r hf' hfind hrev).2
    · rintro ⟨hf, r, hfind, hrev⟩
      have hfo : tokenRepositoryImpl.FindRefreshTokenByToken s t
          env.fails.findRTFails = .ok r :=
        (find_ok_iff s t env.fails.findRTFails r).mpr ⟨hf, hfind⟩
      by_cases hfam : env.fails.revokeFamilyFails = true
      · rw [refresh_run_reuse_revokefail env s t r hfo hrev hfam]
      · have hfam' : env.fails.revokeFamilyFails = false := by simpa using hfam
        rw [refresh_run_reuse env s t r hfo hrev hfam']

/-- Witness for the amended C2 at a store holding one revoked record. -/
theorem refresh_error_mapping_amended_witness :
    (((userServiceImpl.RefreshToken
        ⟨50, 900, 3600, "at1", "rt1", "famX", 2, some ⟨7, "bob", "b@x", "pw"⟩, true, false,
          ⟨false, false, false, false, false⟩⟩
        ⟨[⟨1, 7, "rt0", "fam", 100, true, some 10, none⟩], []⟩ "rt0").1 =
        .error .invalidRefreshToken ↔
      (⟨false, false, false, false, false⟩ : StoreFail).findRTFails = true ∨
        (⟨[⟨1, 7, "rt0", "fam", 100, true, some 10, none⟩], []⟩ :
            Store).refreshTokens.find? (fun r => r.token == "rt0") = none) ∧
     ((userServiceImpl.RefreshToken
        ⟨50, 900, 3600, "at1", "rt1", "famX", 2, some ⟨7, "bob", "b@x", "pw"⟩, true, false,
          ⟨false, false, false, false, false⟩⟩
        ⟨[⟨1, 7, "rt0", "fam", 100, true, some 10, none⟩], []⟩ "rt0").1 =
        .error .tokenReused ↔
      (⟨false, false, false, false, false⟩ : StoreFail).findRTFails = false ∧
        ∃ r, (⟨[⟨1, 7, "rt0", "fam", 100, true, some 10, none⟩], []⟩ :
            Store).refreshTokens.find? (fun x => x.token == "rt0") = some r ∧
          r.isRevoked = true)) :=
  refresh_error_mapping_amended
    ⟨50, 900, 3600, "at1", "rt1", "famX", 2, some ⟨7, "bob", "b@x", "pw"⟩, true, false,
      ⟨false, false, false, false, false⟩⟩
    ⟨[⟨1, 7, "rt0", "fam", 100, true, some 10, none⟩], []⟩ "rt0"

/-- Counterexample for C5: a token whose header algorithm is HS384 — different
from the configured `signingMethod` HS256 — with a correct HS384 MAC under the
same secret is accepted by `ValidateToken`: the keyfunc only checks membership
in the HMAC family, not equality with the configured algorithm. -/
theorem validateToken_accepts_other_hmac :
    ValidateToken (signToken .HS384 ⟨7, "b@x", 0, 100⟩ "sec") "sec" 50 =
      .ok ⟨7, "b@x", 0, 100⟩ ∧
    (signToken .HS384 ⟨7, "b@x", 0, 100⟩ "sec").alg ≠ signingMethod := by
  constructor
  · rfl
  · decide

/-- C5 amended: `ValidateToken` rejects, with the signing-method error and
before trusting any claim, every token whose algorithm is outside the HMAC
family; but within the HMAC family it accepts any algorithm whose MAC
verifies under the configured secret — not only the configured HS256. -/
theorem validateToken_hmac_family_check (tok : TokenString) (secret : String) (now : Nat) :
    (tok.alg.isHMAC = false →
      ValidateToken tok secret now = .error .invalidSigningMethod) ∧
    (∀ c : JWTClaims, ValidateToken tok secret now = .ok c → tok.alg.isHMAC = true) := by
  constructor
  · intro h
    simp [ValidateToken, h]
  · intro c hok
    by_cases h : tok.alg.isHMAC = true
    · exact h
    · have hf : tok.alg.isHMAC = false := by simpa using h
      rw [show ValidateToken tok secret now = .error .invalidSigningMethod by
        simp [ValidateToken, hf]] at hok
      exact absurd hok (by simp)

/-- Witness for the amended C5: an RS256 token is rejected with the
signing-method error; the accepted HS256 token shows the converse direction. -/
theorem validateToken_hmac_family_check_witness :
    ((signToken .RS256 ⟨7, "b@x", 0, 100⟩ "sec").alg.isHMAC = false →
      ValidateToken (signToken .RS256 ⟨7, "b@x", 0, 100⟩ "sec") "sec" 50 =
        .error .invalidSigningMethod) ∧
    (∀ c : JWTClaims,
      ValidateToken (signToken .RS256 ⟨7, "b@x", 0, 100⟩ "sec") "sec" 50 = .ok c →
      (signToken .RS256 ⟨7, "b@x", 0, 100⟩ "sec").alg.isHMAC = true) :=
  validateToken_hmac_family_check (signToken .RS256 ⟨7, "b@x", 0, 100⟩ "sec") "sec" 50

/-- C4 (code bug): a signature-valid, unexpired access credential that is
present in the token blacklist with a future expiry still passes the
authentication middleware — `AuthMiddleware` only calls `ValidateToken` and
never consults `IsTokenBlacklisted` — and `Logout` never writes the blacklist
at all, despite its own doc comment saying it blacklists the access token. -/
theorem auth_accepts_blacklisted_credential :
    tokenRepositoryImpl.IsTokenBlacklisted
      ⟨[], [⟨1, "raw-access-token", 100⟩]⟩ "raw-access-token" 50 = true ∧
    AuthMiddleware "sec" 50 (signToken .HS256 ⟨7, "b@x", 0, 100⟩ "sec") =
      .ok ⟨7, "b@x", 0, 100⟩ ∧
    (userServiceImpl.Logout
      ⟨50, 900, 3600, "at1", "rt1", "famX", 2, none, false, false,
        ⟨false, false, false, false, false⟩⟩
      ⟨[], [⟨1, "raw-access-token", 100⟩]⟩ 7 "rt0").2.blacklist =
      (⟨[], [⟨1, "raw-access-token", 100⟩]⟩ : Store).blacklist :=
  ⟨rfl, rfl, rfl⟩
